import Mathlib

/-!
Verification of the OpenAI API wrapper (src/openai-wrapper.py) against its
specification. The wrapper is embedded shallowly: JSON values are an inductive
type, the HTTP layer is an oracle function passed to each operation, and the
Python exceptions become an explicit result type.
-/

/-- A JSON value, as assembled into request payloads by the wrapper.
Objects are ordered association lists, matching Python dict insertion order. -/
inductive JsonVal where
  | str (s : String)
  | int (n : Int)
  | num (q : ℚ)
  | arr (l : List JsonVal)
  | obj (fields : List (String × JsonVal))

/-- A chat message: a dict with keys role and content (source line 28,
`List[Dict[str, str]]` with keys role and content per the docstring). -/
structure Message where
  role : String
  content : String

/-- The JSON object a message dict denotes in the payload. -/
def Message.toJson (m : Message) : JsonVal :=
  JsonVal.obj [("role", JsonVal.str m.role), ("content", JsonVal.str m.content)]

/-- The client state fixed by `__init__` (source lines 16-24). -/
structure OpenAIWrapper where
  api_key : String
  base_url : String
  headers : List (String × String)

/-- Python truthiness of an optional string: None and the empty string are
falsy (used by `api_key or os.getenv(...)` and `if not self.api_key`). -/
def strTruthy : Option String → Bool
  | none => false
  | some s => s != ""

/-- Python truthiness of an optional int: None and 0 are falsy
(used by `if max_tokens:` on source line 51). -/
def optIntTruthy : Option Int → Bool
  | none => false
  | some t => t != 0

/-- The ValueError message raised by `__init__` (source line 18). -/
def errNoKey : String :=
  "API key must be provided either directly or through OPENAI_API_KEY environment variable"

/-- Embeds `OpenAIWrapper.__init__` (source lines 10-24). `api_key` is the
explicit argument (None when omitted); `env` is the value of the
OPENAI_API_KEY environment variable (None when unset). `self.api_key =
api_key or os.getenv(...)` takes the explicit argument when truthy, else the
environment value; `if not self.api_key: raise ValueError(...)` rejects a
resolved value that is None or empty. On success the base URL and the two
default headers are fixed. -/
def OpenAIWrapper.init (api_key env : Option String) : Except String OpenAIWrapper :=
  match (if strTruthy api_key then api_key else env) with
  | none => Except.error errNoKey
  | some s =>
    if s == "" then Except.error errNoKey
    else Except.ok
      { api_key := s,
        base_url := "https://api.openai.com/v1",
        headers := [("Authorization", "Bearer " ++ s),
                    ("Content-Type", "application/json")] }

/-- The chat-completion request body (source lines 45-52): a dict with model,
messages (verbatim), temperature, and max_tokens appended only when
`if max_tokens:` is truthy. -/
def chatPayload (messages : List Message) (model : String) (temperature : ℚ)
    (max_tokens : Option Int) : List (String × JsonVal) :=
  let payload := [("model", JsonVal.str model),
                  ("messages", JsonVal.arr (messages.map Message.toJson)),
                  ("temperature", JsonVal.num temperature)]
  match max_tokens with
  | none => payload
  | some t => if t != 0 then payload ++ [("max_tokens", JsonVal.int t)] else payload

/-- The image-generation request body (source lines 80-85): all four fields,
unconditionally. -/
def imagePayload (prompt size : String) (n : Int) (response_format : String) :
    List (String × JsonVal) :=
  [("prompt", JsonVal.str prompt), ("size", JsonVal.str size),
   ("n", JsonVal.int n), ("response_format", JsonVal.str response_format)]

/-- An outgoing HTTP POST as handed to `requests.post` (url, headers, json payload). -/
structure HttpRequest where
  url : String
  headers : List (String × String)
  body : List (String × JsonVal)

/-- What a `requests.post` call can produce: a response carrying a status code
and a body (decoded JSON, or the decode-error text when the body is not valid
JSON), or a connection-level failure carrying its description. -/
inductive HttpResult where
  | success (status : Nat) (body : Except String JsonVal)
  | connError (desc : String)

/-- What each wrapper operation can produce: the decoded JSON body, or the
generic `Exception("API request failed: ...")` raised on lines 59 and 92. -/
inductive ApiResult where
  | success (v : JsonVal)
  | requestFailure (msg : String)

/-- True exactly when the result is the generic request-failure error. -/
def ApiResult.isFailure : ApiResult → Bool
  | ApiResult.requestFailure _ => true
  | ApiResult.success _ => false

/-- Embeds `Response.raise_for_status` of the requests library, as called on
source lines 56 and 89: it raises an HTTPError (a RequestException) exactly
for status codes 400-499 (client error) and 500-599 (server error), and
returns normally for every other status. -/
def raise_for_status (status : Nat) : Option String :=
  if 400 ≤ status ∧ status < 500 then some (toString status ++ " Client Error")
  else if 500 ≤ status ∧ status < 600 then some (toString status ++ " Server Error")
  else none

/-- Embeds the shared try/except body of both operations (source lines 54-59
and 87-92): a connection failure, a raised status, or a JSON decode failure
is a RequestException, re-raised as `Exception("API request failed: " + str(e))`;
otherwise the decoded JSON body is returned. -/
def handleResponse : HttpResult → ApiResult
  | HttpResult.connError d => ApiResult.requestFailure ("API request failed: " ++ d)
  | HttpResult.success status body =>
    match raise_for_status status with
    | some d => ApiResult.requestFailure ("API request failed: " ++ d)
    | none =>
      match body with
      | Except.ok v => ApiResult.success v
      | Except.error d => ApiResult.requestFailure ("API request failed: " ++ d)

/-- The POST built by `chat_completion` (source lines 43-55): the
chat-completions endpoint under the fixed base URL, the fixed headers, and
the chat payload. -/
def OpenAIWrapper.chat_completion_request (w : OpenAIWrapper) (messages : List Message)
    (model : String) (temperature : ℚ) (max_tokens : Option Int) : HttpRequest :=
  { url := w.base_url ++ "/chat/completions",
    headers := w.headers,
    body := chatPayload messages model temperature max_tokens }

/-- Embeds `chat_completion` (source lines 26-59). The network is the oracle
`net`: the operation issues exactly the one request it built and maps the
outcome through the shared error handling. -/
def OpenAIWrapper.chat_completion (w : OpenAIWrapper) (messages : List Message)
    (model : String) (temperature : ℚ) (max_tokens : Option Int)
    (net : HttpRequest → HttpResult) : ApiResult :=
  handleResponse (net (w.chat_completion_request messages model temperature max_tokens))

/-- The POST built by `create_image` (source lines 78-88). -/
def OpenAIWrapper.create_image_request (w : OpenAIWrapper) (prompt size : String)
    (n : Int) (response_format : String) : HttpRequest :=
  { url := w.base_url ++ "/images/generations",
    headers := w.headers,
    body := imagePayload prompt size n response_format }

/-- Embeds `create_image` (source lines 61-92). -/
def OpenAIWrapper.create_image (w : OpenAIWrapper) (prompt size : String) (n : Int)
    (response_format : String) (net : HttpRequest → HttpResult) : ApiResult :=
  handleResponse (net (w.create_image_request prompt size n response_format))

/-- The method `chat_completion` as a state transformer on the client object:
its body (source lines 43-59) contains no assignment to any attribute of
self, so the post-state is the pre-state. -/
def OpenAIWrapper.chat_completion_st (w : OpenAIWrapper) (messages : List Message)
    (model : String) (temperature : ℚ) (max_tokens : Option Int)
    (net : HttpRequest → HttpResult) : OpenAIWrapper × ApiResult :=
  (w, w.chat_completion messages model temperature max_tokens net)

/-- The method `create_image` as a state transformer on the client object:
its body (source lines 78-92) contains no assignment to any attribute of
self, so the post-state is the pre-state. -/
def OpenAIWrapper.create_image_st (w : OpenAIWrapper) (prompt size : String) (n : Int)
    (response_format : String) (net : HttpRequest → HttpResult) :
    OpenAIWrapper × ApiResult :=
  (w, w.create_image prompt size n response_format net)

/-- A concrete constructed client, used to instantiate theorems. -/
def sampleWrapper : OpenAIWrapper :=
  { api_key := "sk-test",
    base_url := "https://api.openai.com/v1",
    headers := [("Authorization", "Bearer sk-test"),
                ("Content-Type", "application/json")] }

/-- C1: the chat-completion request body has exactly the fields model,
messages, temperature, plus max_tokens only when a (truthy) value is
provided; with max_tokens 150 the body carries max_tokens 150; the
all-defaults call on one user message Hi produces exactly the three-field
body with model gpt-3.5-turbo and temperature 0.7 and no max_tokens key. -/
theorem chat_payload_exact_fields :
    (∀ (w : OpenAIWrapper) (messages : List Message) (model : String)
        (temperature : ℚ) (mt : Option Int),
      ((w.chat_completion_request messages model temperature mt).body).map Prod.fst =
        if optIntTruthy mt then ["model", "messages", "temperature", "max_tokens"]
        else ["model", "messages", "temperature"]) ∧
    (∀ (messages : List Message) (model : String) (temperature : ℚ),
      List.lookup "max_tokens" (chatPayload messages model temperature none) = none) ∧
    (∀ (messages : List Message) (model : String) (temperature : ℚ),
      List.lookup "max_tokens" (chatPayload messages model temperature (some 150)) =
        some (JsonVal.int 150)) ∧
    chatPayload [⟨"user", "Hi"⟩] "gpt-3.5-turbo" 0.7 none =
      [("model", JsonVal.str "gpt-3.5-turbo"),
       ("messages", JsonVal.arr
          [JsonVal.obj [("role", JsonVal.str "user"), ("content", JsonVal.str "Hi")]]),
       ("temperature", JsonVal.num 0.7)] := by
  refine ⟨?_, ?_, ?_, rfl⟩
  · intro w messages model temperature mt
    cases mt with
    | none => rfl
    | some t =>
      by_cases h : t = 0
      · subst h; rfl
      · have ht : (t != 0) = true := by simpa using h
        simp [OpenAIWrapper.chat_completion_request, chatPayload, optIntTruthy, ht]
  · intro messages model temperature
    rfl
  · intro messages model temperature
    rfl

/-- C2: the image-generation request body always contains exactly the four
fields prompt, size, n, response_format, the request targets the
image-generations endpoint under the base URL fixed at construction, and the
documented example inputs produce exactly the documented body. -/
theorem image_payload_all_fields :
    (∀ (w : OpenAIWrapper) (prompt size : String) (n : Int) (response_format : String),
      ((w.create_image_request prompt size n response_format).body).map Prod.fst =
        ["prompt", "size", "n", "response_format"]) ∧
    (∀ (w : OpenAIWrapper) (prompt size : String) (n : Int) (response_format : String),
      (w.create_image_request prompt size n response_format).url =
        w.base_url ++ "/images/generations") ∧
    (∀ (k env : Option String) (w : OpenAIWrapper),
      OpenAIWrapper.init k env = Except.ok w → w.base_url = "https://api.openai.com/v1") ∧
    imagePayload "A cat" "512x512" 2 "b64_json" =
      [("prompt", JsonVal.str "A cat"), ("size", JsonVal.str "512x512"),
       ("n", JsonVal.int 2), ("response_format", JsonVal.str "b64_json")] := by
  refine ⟨fun _ _ _ _ _ => rfl, fun _ _ _ _ _ => rfl, ?_, rfl⟩
  intro k env w h
  unfold OpenAIWrapper.init at h
  split at h
  · cases h
  · split at h
    · cases h
    · cases h
      rfl

/-- C2 witness: the endpoint conjunct instantiated at a concretely
constructed client. -/
theorem image_payload_all_fields_witness :
    sampleWrapper.base_url = "https://api.openai.com/v1" :=
  image_payload_all_fields.2.2.1 (some "sk-test") none sampleWrapper rfl

/-- Helper: a response whose body is not valid JSON never yields a decoded
value, whatever the status code. -/
theorem handleResponse_decode_error_isFailure (status : Nat) (d : String) :
    (handleResponse (HttpResult.success status (Except.error d))).isFailure = true := by
  simp only [handleResponse]
  cases raise_for_status status with
  | none => rfl
  | some s => rfl

/-- C3 counterexample: a response with the non-2xx status 304 and a valid
JSON body is returned as a decoded value, not raised as a request failure,
refuting the claim that every non-2xx status raises RequestFailure. -/
theorem non2xx_status_can_return_value :
    sampleWrapper.chat_completion [] "gpt-3.5-turbo" 0.7 none
        (fun _ => HttpResult.success 304 (Except.ok (JsonVal.obj []))) =
      ApiResult.success (JsonVal.obj []) := rfl

/-- C3 (amended): a connection failure, or a response status in 400-599
(4xx and 5xx collapsing to the same single error kind with no distinction),
makes either operation raise the generic RequestFailure carrying a textual
description, and no decoded value is returned; statuses outside 400-599 are
not raised for status. -/
theorem request_failure_on_error_status :
    (∀ d : String, handleResponse (HttpResult.connError d) =
        ApiResult.requestFailure ("API request failed: " ++ d)) ∧
    (∀ (status : Nat) (body : Except String JsonVal), 400 ≤ status → status < 600 →
        (handleResponse (HttpResult.success status body)).isFailure = true) ∧
    (∀ (w : OpenAIWrapper) (messages : List Message) (model : String)
        (temperature : ℚ) (mt : Option Int) (net : HttpRequest → HttpResult),
      w.chat_completion messages model temperature mt net =
        handleResponse (net (w.chat_completion_request messages model temperature mt))) ∧
    (∀ (w : OpenAIWrapper) (prompt size : String) (n : Int)
        (response_format : String) (net : HttpRequest → HttpResult),
      w.create_image prompt size n response_format net =
        handleResponse (net (w.create_image_request prompt size n response_format))) := by
  refine ⟨fun _ => rfl, ?_, fun _ _ _ _ _ _ => rfl, fun _ _ _ _ _ _ => rfl⟩
  intro status body h1 h2
  simp only [handleResponse, raise_for_status]
  by_cases h : status < 500
  · rw [if_pos ⟨h1, h⟩]
    rfl
  · rw [if_neg (fun hc => h hc.2), if_pos ⟨Nat.le_of_not_lt h, h2⟩]
    rfl

/-- C3 witness: a 401 response raises the request failure. -/
theorem request_failure_on_error_status_witness :
    (handleResponse (HttpResult.success 401 (Except.ok (JsonVal.obj [])))).isFailure = true :=
  request_failure_on_error_status.2.1 401 (Except.ok (JsonVal.obj []))
    (by decide) (by decide)

/-- C4: construction with no explicit credential while the environment
variable is unset or empty raises the configuration error, producing no
client instance. -/
theorem init_fails_without_credential :
    ∀ env : Option String, strTruthy env = false →
      OpenAIWrapper.init none env = Except.error errNoKey := by
  intro env h
  cases env with
  | none => rfl
  | some s =>
    have hs : (s == "") = true := by
      cases he : s == "" with
      | true => rfl
      | false => simp [strTruthy, he] at h; simp [h] at he
    unfold OpenAIWrapper.init
    simp [strTruthy, hs]

/-- C4 witness: construction with the environment variable set to the empty
string fails. -/
theorem init_fails_without_credential_witness :
    OpenAIWrapper.init none (some "") = Except.error errNoKey :=
  init_fails_without_credential (some "") rfl

/-- C5 counterexample: the empty string is an explicit credential string for
which construction does not succeed (with the environment variable unset it
raises the configuration error), refuting the claim for every explicit
credential string. -/
theorem empty_explicit_credential_fails :
    OpenAIWrapper.init (some "") none = Except.error errNoKey := rfl

/-- C5 (amended): for every non-empty explicit credential string,
construction succeeds regardless of the environment variable's state, and
the stored credential and bearer Authorization header use the explicit
argument, not the environment value. -/
theorem explicit_credential_precedence :
    ∀ (s : String) (env : Option String), s ≠ "" →
      OpenAIWrapper.init (some s) env =
        Except.ok { api_key := s, base_url := "https://api.openai.com/v1",
                    headers := [("Authorization", "Bearer " ++ s),
                                ("Content-Type", "application/json")] } := by
  intro s env h
  simp [OpenAIWrapper.init, strTruthy, h]

/-- C5 witness: an explicit credential wins over a different environment
value. -/
theorem explicit_credential_precedence_witness :
    "sk-test" ≠ "" ∧
      OpenAIWrapper.init (some "sk-test") (some "env-key") =
        Except.ok { api_key := "sk-test", base_url := "https://api.openai.com/v1",
                    headers := [("Authorization", "Bearer " ++ "sk-test"),
                                ("Content-Type", "application/json")] } :=
  ⟨by decide, explicit_credential_precedence "sk-test" (some "env-key") (by decide)⟩

/-- C6: when the HTTP response body is not valid JSON, each operation raises
the same generic RequestFailure kind rather than returning a value or
letting another exception kind escape. -/
theorem invalid_json_raises_request_failure :
    (∀ (w : OpenAIWrapper) (messages : List Message) (model : String)
        (temperature : ℚ) (mt : Option Int) (net : HttpRequest → HttpResult)
        (status : Nat) (d : String),
      net (w.chat_completion_request messages model temperature mt) =
          HttpResult.success status (Except.error d) →
        (w.chat_completion messages model temperature mt net).isFailure = true) ∧
    (∀ (w : OpenAIWrapper) (prompt size : String) (n : Int)
        (response_format : String) (net : HttpRequest → HttpResult)
        (status : Nat) (d : String),
      net (w.create_image_request prompt size n response_format) =
          HttpResult.success status (Except.error d) →
        (w.create_image prompt size n response_format net).isFailure = true) := by
  constructor
  · intro w messages model temperature mt net status d hnet
    unfold OpenAIWrapper.chat_completion
    rw [hnet]
    exact handleResponse_decode_error_isFailure status d
  · intro w prompt size n response_format net status d hnet
    unfold OpenAIWrapper.create_image
    rw [hnet]
    exact handleResponse_decode_error_isFailure status d

/-- C6 witness: a 200 response with an undecodable body fails with the
request failure. -/
theorem invalid_json_raises_request_failure_witness :
    (sampleWrapper.chat_completion [] "gpt-3.5-turbo" 0.7 none
        (fun _ => HttpResult.success 200 (Except.error "Expecting value"))).isFailure =
      true :=
  invalid_json_raises_request_failure.1 sampleWrapper [] "gpt-3.5-turbo" 0.7 none
    (fun _ => HttpResult.success 200 (Except.error "Expecting value"))
    200 "Expecting value" rfl

/-- C7: the messages field of the outgoing chat request body is the input
sequence verbatim, element for element in order, each message keeping its
role and content fields unchanged. -/
theorem messages_passed_verbatim :
    (∀ (w : OpenAIWrapper) (messages : List Message) (model : String)
        (temperature : ℚ) (mt : Option Int),
      List.lookup "messages" ((w.chat_completion_request messages model temperature mt).body) =
        some (JsonVal.arr (messages.map Message.toJson))) ∧
    (∀ m : Message, Message.toJson m =
        JsonVal.obj [("role", JsonVal.str m.role), ("content", JsonVal.str m.content)]) := by
  refine ⟨?_, fun _ => rfl⟩
  intro w messages model temperature mt
  cases mt with
  | none => rfl
  | some t =>
    by_cases h : t = 0
    · subst h; rfl
    · have ht : (t != 0) = true := by simpa using h
      simp [OpenAIWrapper.chat_completion_request, chatPayload, ht, List.lookup]

/-- C8: neither operation mutates the client: the state-transformer reading
of each method returns the client object unchanged, so the credential, base
URL and headers after any call (successful or failing) equal their
construction-time values. -/
theorem operations_do_not_mutate_client :
    ∀ (w : OpenAIWrapper) (messages : List Message) (model : String)
      (temperature : ℚ) (mt : Option Int) (net : HttpRequest → HttpResult)
      (prompt size : String) (n : Int) (response_format : String),
      (w.chat_completion_st messages model temperature mt net).1 = w ∧
      (w.create_image_st prompt size n response_format net).1 = w :=
  fun _ _ _ _ _ _ _ _ _ _ => ⟨rfl, rfl⟩

/-- C9: calling chat completion with max_tokens explicitly 0 produces a body
with no max_tokens key at all, because inclusion is gated on the truthiness
of the value. -/
theorem max_tokens_zero_omitted :
    ∀ (messages : List Message) (model : String) (temperature : ℚ),
      (chatPayload messages model temperature (some 0)).map Prod.fst =
          ["model", "messages", "temperature"] ∧
        List.lookup "max_tokens" (chatPayload messages model temperature (some 0)) = none :=
  fun _ _ _ => ⟨rfl, rfl⟩

/-- C10: an empty explicit credential with a non-empty environment value
falls back to the environment: construction succeeds and the stored
credential and bearer header use the environment value. -/
theorem empty_explicit_falls_back_to_env :
    ∀ v : String, v ≠ "" →
      OpenAIWrapper.init (some "") (some v) =
        Except.ok { api_key := v, base_url := "https://api.openai.com/v1",
                    headers := [("Authorization", "Bearer " ++ v),
                                ("Content-Type", "application/json")] } := by
  intro v h
  have hv : (v == "") = false := by
    cases he : v == "" with
    | false => rfl
    | true => exact absurd (by simpa using he) h
  unfold OpenAIWrapper.init
  simp [strTruthy, hv]

/-- C10 witness: the fallback instantiated at a concrete environment value. -/
theorem empty_explicit_falls_back_to_env_witness :
    "env-key" ≠ "" ∧
      OpenAIWrapper.init (some "") (some "env-key") =
        Except.ok { api_key := "env-key", base_url := "https://api.openai.com/v1",
                    headers := [("Authorization", "Bearer " ++ "env-key"),
                                ("Content-Type", "application/json")] } :=
  ⟨by decide, empty_explicit_falls_back_to_env "env-key" (by decide)⟩
